import Mathlib

/-!
Shallow embedding of the cf-redis-containers sources, for checking the
specification claims against the code.

Embedded components:
* `CloudflareSocketBridge` (src/socket-bridge.ts): modelled as a state record
  (`BridgeState`) plus per-method step functions producing the successor state
  and the list of observable effects (`BridgeEvent`) the method performs
  against the underlying Cloudflare transport socket, the acquired reader and
  writer, and the Node stream callback.
* `RedisContainer` / connection manager (src/redis.ts): `init` modelled as the
  bounded retry loop over an oracle of per-attempt outcomes, `client` as the
  accessor over the optional stored handle, the RPC proxy (`RedisRpcClient.call`
  and `createRedisClientWrapper`) as lookup/forwarding functions.
-/

namespace CfRedis

/-! ## CloudflareSocketBridge (src/socket-bridge.ts) -/

/-- The mutable fields of a `CloudflareSocketBridge` instance.  `reader` and
`writer` record whether the corresponding handle is non-null (they are acquired
in `setupSocket` and nulled in `_destroy`); `cfEndpoint` records the endpoint
the wrapped Cloudflare socket was connected to (it plays no further role: the
bridge never reads it back). -/
structure BridgeState where
  reader : Bool
  writer : Bool
  isConnected : Bool
  isDestroyed : Bool
  hasWriteError : Bool
  writeError : Option String
  cfEndpoint : String
deriving DecidableEq, Repr

/-- State of a freshly constructed bridge, before `cfSocket.opened` resolves. -/
def initialBridge (endpoint : String) : BridgeState :=
  { reader := false, writer := false, isConnected := false, isDestroyed := false
    hasWriteError := false, writeError := none, cfEndpoint := endpoint }

/-- Observable effects a bridge method performs: actions on the underlying
transport (`transportWrite`, `transportClose`), on the acquired stream handles
(`readerCancel`, `writerClose`), Node-style events (`emitConnect`,
`emitError`), and callback completions carrying an optional error. -/
inductive BridgeEvent where
  | transportWrite (len : Nat)
  | transportClose
  | readerCancel
  | writerClose
  | emitConnect
  | emitError (e : String)
  | writeCallback (err : Option String)
  | destroyCallback (err : Option String)
deriving DecidableEq, Repr

/-- Error message built in `_write` when the guard `!this.writer || this.isDestroyed`
fires (src/socket-bridge.ts line 134). -/
def writeNotConnectedMsg : String := "Socket is not connected or has been destroyed"

/-- `_write(chunk, encoding, callback)` (src/socket-bridge.ts lines 125-159).
`len` is the chunk length and `outcome` the result of the underlying
`writer.write(data)` promise (`none` = fulfilled, `some e` = rejected with `e`).
Guard: if the writer is null or the bridge is destroyed, the callback fires
with a synthetic error and nothing touches the transport.  Otherwise the
transport write is attempted; on rejection the error is latched
(`hasWriteError := true`, `writeError := some e`), `error` is emitted, and the
callback receives the error. -/
def writeStep (st : BridgeState) (len : Nat) (outcome : Option String) :
    BridgeState × List BridgeEvent :=
  if st.writer = false ∨ st.isDestroyed then
    (st, [.writeCallback (some writeNotConnectedMsg)])
  else
    match outcome with
    | none => (st, [.transportWrite len, .writeCallback none])
    | some e =>
        ({ st with hasWriteError := true, writeError := some e },
         [.transportWrite len, .emitError e, .writeCallback (some e)])

/-- `_destroy(error, callback)` (src/socket-bridge.ts lines 173-216).  Sets
`isDestroyed := true, isConnected := false`; cancels the reader and closes the
writer when they are non-null, nulling both; always calls `cfSocket.close()`
(`cfSocket` is never nulled), swallowing its failure; finally invokes the
callback with the original error. -/
def destroyStep (st : BridgeState) (err : Option String) :
    BridgeState × List BridgeEvent :=
  ({ st with isDestroyed := true, isConnected := false
             reader := false, writer := false },
   (if st.reader then [BridgeEvent.readerCancel] else [])
     ++ (if st.writer then [BridgeEvent.writerClose] else [])
     ++ [BridgeEvent.transportClose, BridgeEvent.destroyCallback err])

/-- The successful completion of `setupSocket()` (src/socket-bridge.ts lines
34-74): after `cfSocket.opened` resolves, `isConnected := true`, the reader and
writer are acquired, and `connect` is emitted. -/
def openStep (st : BridgeState) : BridgeState × List BridgeEvent :=
  ({ st with isConnected := true, reader := true, writer := true },
   [.emitConnect])

/-- `readyState` getter (src/socket-bridge.ts lines 223-227). -/
def readyState (st : BridgeState) : String :=
  if st.isDestroyed ∨ st.hasWriteError then "closed"
  else if st.isConnected then "open"
  else "opening"

/-- `hasErrors()` (src/socket-bridge.ts lines 230-232). -/
def hasErrors (st : BridgeState) : Bool :=
  st.hasWriteError || st.isDestroyed

/-- `connecting` getter (src/socket-bridge.ts lines 219-221). -/
def connecting (st : BridgeState) : Bool :=
  !st.isConnected && !st.isDestroyed

/-- The address record returned by `address()` (src/socket-bridge.ts lines
258-265). -/
structure AddressInfo where
  address : String
  family : String
  port : Nat
deriving DecidableEq, Repr

/-- `address()` (src/socket-bridge.ts lines 258-265): builds the literal record
without consulting any instance state. -/
def address (_st : BridgeState) : AddressInfo :=
  { address := "10.0.0.1", family := "IPv4", port := 6379 }

/-- Operations a driver can perform on a bridge after construction. -/
inductive BridgeOp where
  | openOk
  | write (len : Nat) (outcome : Option String)
  | destroy (err : Option String)
deriving DecidableEq, Repr

/-- Dispatch one operation to the corresponding step function. -/
def bridgeStep (st : BridgeState) : BridgeOp → BridgeState × List BridgeEvent
  | .openOk => openStep st
  | .write len outcome => writeStep st len outcome
  | .destroy err => destroyStep st err

/-- Run a sequence of operations, returning the final state. -/
def runBridge (st : BridgeState) : List BridgeOp → BridgeState
  | [] => st
  | o :: rest => runBridge (bridgeStep st o).1 rest

/-- Run a sequence of operations, returning every emitted effect in order. -/
def runEvents (st : BridgeState) : List BridgeOp → List BridgeEvent
  | [] => []
  | o :: rest => (bridgeStep st o).2 ++ runEvents (bridgeStep st o).1 rest

/-- Whether an event is a write against the underlying transport. -/
def isTransportWrite : BridgeEvent → Bool
  | .transportWrite _ => true
  | _ => false

/-! ## RedisContainer connection manager (src/redis.ts) -/

/-- `MAX_RETRIES` (src/redis.ts line 6). -/
def MAX_RETRIES : Nat := 5

/-- `RETRY_DELAY_MS` (src/redis.ts line 7). -/
def RETRY_DELAY_MS : Nat := 1000

/-- Message thrown by the `client` accessor (src/redis.ts line 79). -/
def notInitMsg : String := "Client hasn\x27t been initialized!"

/-- The `client` getter (src/redis.ts lines 77-83): throws when `_client` is
unset, returns the stored handle otherwise.  Client handles are abstracted as
naturals. -/
def clientAccessor (c : Option Nat) : Except String Nat :=
  match c with
  | none => .error notInitMsg
  | some cl => .ok cl

/-- Outcome of one iteration of the `init` retry loop body (the `try` block,
src/redis.ts lines 91-181): either every step succeeded and a client handle
was produced, or some step threw. -/
inductive AttemptResult where
  | ok (c : Nat)
  | fail (e : String)
deriving DecidableEq, Repr

/-- The retry loop of `init` (src/redis.ts lines 90-191) with the whole `try`
body of attempt `i` abstracted by `oracle i`.  `fuel` is the number of loop
iterations remaining (initially `MAX_RETRIES`).  Returns the final `_client`
field together with the number of attempts the loop executed.  Each failure is
caught by the `catch` block, which only logs (and sleeps when iterations
remain), so the loop itself never propagates an exception — the surrounding
`Except` layer is introduced by `init` below. -/
def initLoop (oracle : Nat → AttemptResult) (i fuel : Nat) : Option Nat × Nat :=
  match fuel with
  | 0 => (none, 0)
  | fuel' + 1 =>
    match oracle i with
    | .ok c => (some c, 1)
    | .fail _ =>
        let r := initLoop oracle (i + 1) fuel'
        (r.1, r.2 + 1)

/-- Whether an attempt outcome is a failure (the `try` body threw). -/
def attemptFailed : AttemptResult → Bool
  | .fail _ => true
  | .ok _ => false

/-- `init()` (src/redis.ts lines 85-192): returns immediately when `_client`
is already set; otherwise runs the retry loop.  The result is the pair of the
new `_client` field and the number of attempts performed, wrapped in `Except`
so that "init throws" is representable; the body catches every attempt
failure, so no `.error` is ever produced. -/
def init (c : Option Nat) (oracle : Nat → AttemptResult) :
    Except String (Option Nat × Nat) :=
  match c with
  | some cl => .ok (some cl, 0)
  | none => .ok (initLoop oracle 0 MAX_RETRIES)

/-! ### Resource trace of `init`

For the leak claim we refine an attempt into the points at which it can fail
and record the resource-lifecycle events the code performs
(src/redis.ts lines 91-190). -/

/-- Where the `try` body of an attempt throws, if anywhere.  The stages follow
src/redis.ts: the null-socket check (line 100), `await cfSocket.opened`
(line 104), the bridge connect race with its 2 s timeout (lines 111-116), the
`client.connect()` race with its 5 s timeout and the final `clientError`
re-check (lines 146-175). -/
inductive FailPoint where
  | noSocket
  | openFail
  | bridgeTimeout
  | redisConnectFail
  | success
deriving DecidableEq, Repr

/-- Resource-lifecycle events of the `init` loop: channel obtained
(`socketConnect`), adapter constructed (`bridgeCreate`), adapter destroyed
(`bridgeDestroy`), channel closed (`socketClose`), client stored
(`clientCreate`), attempt failure logged (`logError`), fixed-delay sleep
between attempts (`sleepDelay`). -/
inductive MgrEvent where
  | socketConnect
  | bridgeCreate
  | bridgeDestroy
  | socketClose
  | clientCreate
  | logError
  | sleepDelay
deriving DecidableEq, Repr

/-- The resource events one attempt performs before it returns or throws
(src/redis.ts lines 99-181): the channel is obtained at line 99 (absent only
when `connect` returned nothing), the bridge is constructed at line 107 (only
once `opened` resolved), and the client handle is stored at line 180 on full
success. -/
def attemptEvents : FailPoint → List MgrEvent
  | .noSocket => []
  | .openFail => [.socketConnect]
  | .bridgeTimeout => [.socketConnect, .bridgeCreate]
  | .redisConnectFail => [.socketConnect, .bridgeCreate]
  | .success => [.socketConnect, .bridgeCreate, .clientCreate]

/-- Whether the attempt reached the `return` at src/redis.ts line 181. -/
def attemptSucceeds : FailPoint → Bool
  | .success => true
  | _ => false

/-- The resource-event trace of the retry loop (src/redis.ts lines 90-191).
On failure the `catch` block logs the error and, when iterations remain,
sleeps `RETRY_DELAY_MS` and retries; it performs no destruction of the
bridge or channel of the failed attempt. -/
def initTrace (oracle : Nat → FailPoint) (i fuel : Nat) : List MgrEvent :=
  match fuel with
  | 0 => []
  | fuel' + 1 =>
    let fp := oracle i
    if attemptSucceeds fp then attemptEvents fp
    else
      attemptEvents fp ++ [.logError]
        ++ (if fuel' = 0 then [] else [.sleepDelay])
        ++ initTrace oracle (i + 1) fuel'

/-- Whether a manager event is neither an adapter-destroy nor a channel-close
(the cleanup actions the spec requires of a failed attempt). -/
def notCleanup (e : MgrEvent) : Bool :=
  !(e == MgrEvent.bridgeDestroy) && !(e == MgrEvent.socketClose)

/-! ### Interleaving model of concurrent `init` calls

`init` is an `async` method: each `await` inside the `try` body is a
suspension point at which the `init` of another caller can run.  A caller is
modelled by a phase: `start` (about to execute the `if (this._client)` check
at line 86), `awaiting` (inside the attempt body, suspended at an `await`,
having already begun a connection attempt), `done` (returned).  The shared
state is the `_client` field plus a counter of connection attempts begun. -/

inductive Phase where
  | start
  | awaiting
  | done
deriving DecidableEq, Repr

/-- Shared state of the container object together with the phases of the
concurrent `init` callers. -/
structure ConcState where
  client : Option Nat
  attempts : Nat
  threads : List Phase
deriving DecidableEq, Repr

/-- Advance caller `t` by one step.  From `start`: if `_client` is set the
call returns at line 87; otherwise the caller enters the attempt body, which
begins an underlying connection attempt (line 99) and suspends at an `await`.
From `awaiting`: the attempt completes successfully, storing the client handle
(line 180) and returning.  (A single successful attempt per caller suffices
for the concurrency claim.) -/
def concStep (s : ConcState) (t : Nat) : ConcState :=
  match s.threads.get? t with
  | some .start =>
      if s.client.isSome then { s with threads := s.threads.set t .done }
      else { s with attempts := s.attempts + 1, threads := s.threads.set t .awaiting }
  | some .awaiting =>
      { s with client := some 1, threads := s.threads.set t .done }
  | _ => s

/-- Run a schedule (list of caller indices). -/
def concRun (s : ConcState) : List Nat → ConcState
  | [] => s
  | t :: rest => concRun (concStep s t) rest

/-- A concrete already-destroyed bridge state, used to instantiate the
destroyed-write theorem on an input. -/
def exDestroyed : BridgeState :=
  { reader := false, writer := false, isConnected := false, isDestroyed := true
    hasWriteError := false, writeError := none, cfEndpoint := "10.0.0.1:6379" }

/-- A concrete operation sequence without an open, used to instantiate the
destroyed-write theorem on an input. -/
def exOps : List BridgeOp :=
  [.write 3 none, .destroy (some "late"), .write 0 (some "x")]

/-! ## RPC proxy (src/redis.ts lines 10-65)

The held Redis client is abstracted as a partial method table: each method
name maps to a function from the argument list to a result (arguments and
results abstracted as strings), or is absent. -/

/-- Abstraction of the `RedisClientType` instance held by `RedisRpcClient`:
a method table from names to callables. -/
def ClientTable : Type := String → Option (List String → String)

/-- `RedisRpcClient.call(functionName, ...args)` (src/redis.ts lines 16-25):
looks the name up on the held client; if it is a function, applies it to the
arguments and returns the result unmodified; otherwise throws the
no-such-method error naming the method. -/
def rpcCall (client : ClientTable) (name : String) (args : List String) :
    Except String String :=
  match client name with
  | some f => .ok (f args)
  | none => .error ("Method " ++ name ++ " is not a function on Redis client")

/-- The names short-circuited by the proxy `get` trap
(src/redis.ts lines 39-46); symbol keys are also short-circuited but have no
string representation here. -/
def reservedNames : List String :=
  ["then", "catch", "finally", "constructor", "valueOf", "toString", "toJSON"]

/-- What the proxy `get` trap (src/redis.ts lines 37-59) yields for a string
property: a passthrough to the base object for reserved names, or a forwarding
function closing over the property name. -/
inductive ProxyMember where
  | passthrough
  | forwarder (name : String)
deriving DecidableEq, Repr

/-- The `get` trap of `createRedisClientWrapper` (src/redis.ts lines 37-59),
restricted to string properties. -/
def proxyGet (prop : String) : ProxyMember :=
  if reservedNames.contains prop then .passthrough else .forwarder prop

/-- The name-plus-arguments message a forwarding function sends to the
server-side stub (src/redis.ts line 54: `rpcStub.call(prop, ...args)`). -/
structure RpcMessage where
  method : String
  args : List String
deriving DecidableEq, Repr

/-- Invoking the member the `get` trap returned: a forwarder relays exactly
`(name, args)`; a passthrough sends nothing across the boundary. -/
def forwardMessage (m : ProxyMember) (args : List String) : Option RpcMessage :=
  match m with
  | .passthrough => none
  | .forwarder name => some ⟨name, args⟩

/-- A concrete one-method client table, used to instantiate the proxy
forwarding theorem on an input. -/
def pingTable : ClientTable :=
  fun n => if n = "ping" then some (fun _ => "PONG") else none

/-- The server side consuming one message: `call(msg.method, ...msg.args)`. -/
def serverCall (client : ClientTable) (msg : RpcMessage) : Except String String :=
  rpcCall client msg.method msg.args

/-- End-to-end invocation of property `prop` with `args` through the facade:
`none` when the member was a passthrough, otherwise the server-side result. -/
def facadeInvoke (client : ClientTable) (prop : String) (args : List String) :
    Option (Except String String) :=
  (forwardMessage (proxyGet prop) args).map (serverCall client)

/-! ## Protocol codec -/

/-- Modelled from the spec: no codec source is present under src/ (the RESP
serialization lives in the external client library); §4.3 of the spec defines
the encoding of a command name and each argument as a length-prefixed frame
`$<byteLength>\r\n<bytes>\r\n`. -/
def bulkFrame (s : String) : String :=
  "$" ++ toString s.utf8ByteSize ++ "\r\n" ++ s ++ "\r\n"

/-- Modelled from the spec: a command with N arguments serializes as the array
header `*<1+N>\r\n` followed by the length-prefixed frames of the command name
and each argument (§4.3). -/
def encode (name : String) (args : List String) : String :=
  "*" ++ toString (1 + args.length) ++ "\r\n"
    ++ String.join (List.map bulkFrame (name :: args))

/-! ## Helper lemmas -/

/-- On a destroyed bridge, `_write` fires the callback with the synthetic
error and leaves the state unchanged. -/
theorem writeStep_of_destroyed (st : BridgeState) (len : Nat) (outcome : Option String)
    (h : st.isDestroyed = true) :
    writeStep st len outcome
      = (st, [BridgeEvent.writeCallback (some writeNotConnectedMsg)]) := by
  unfold writeStep
  simp [h]

/-- No operation other than the open completion clears the destroyed flag. -/
theorem bridgeStep_keeps_destroyed (st : BridgeState) (op : BridgeOp)
    (h : st.isDestroyed = true) (hop : op ≠ BridgeOp.openOk) :
    (bridgeStep st op).1.isDestroyed = true := by
  cases op with
  | openOk => exact absurd rfl hop
  | write len outcome => rw [bridgeStep, writeStep_of_destroyed st len outcome h]; exact h
  | destroy err => rfl

/-- On a destroyed bridge, no single operation other than the open completion
emits a transport write. -/
theorem stepEvents_of_destroyed (st : BridgeState) (op : BridgeOp)
    (h : st.isDestroyed = true) (hop : op ≠ BridgeOp.openOk) :
    ∀ ev ∈ (bridgeStep st op).2, isTransportWrite ev = false := by
  cases op with
  | openOk => exact absurd rfl hop
  | write len outcome =>
      rw [bridgeStep, writeStep_of_destroyed st len outcome h]
      intro ev hev
      simp at hev
      rw [hev]
      rfl
  | destroy err =>
      intro ev hev
      cases ev
      case transportWrite len =>
        exfalso
        rw [bridgeStep, destroyStep] at hev
        cases hr : st.reader <;> cases hw : st.writer <;> simp [hr, hw] at hev
      all_goals rfl

/-- On a destroyed bridge, no operation sequence that lacks the open
completion ever emits a transport write. -/
theorem runEvents_of_destroyed (ops : List BridgeOp) :
    ∀ st : BridgeState, st.isDestroyed = true → BridgeOp.openOk ∉ ops →
      ∀ ev ∈ runEvents st ops, isTransportWrite ev = false := by
  induction ops with
  | nil =>
      intro st h hop ev hev
      simp [runEvents] at hev
  | cons o rest ih =>
      intro st h hop ev hev
      have ho : o ≠ BridgeOp.openOk := by
        rintro rfl
        exact hop (List.mem_cons_self _ _)
      have hrest : BridgeOp.openOk ∉ rest := fun hm => hop (List.mem_cons_of_mem o hm)
      simp only [runEvents, List.mem_append] at hev
      rcases hev with h1 | h2
      · exact stepEvents_of_destroyed st o h ho ev h1
      · exact ih (bridgeStep st o).1 (bridgeStep_keeps_destroyed st o h ho) hrest ev h2

/-- The retry loop returns `(none, fuel)` when every attempt in range fails. -/
theorem initLoop_all_fail (oracle : Nat → AttemptResult) :
    ∀ fuel i, (∀ j, i ≤ j → j < i + fuel → attemptFailed (oracle j) = true) →
      initLoop oracle i fuel = (none, fuel) := by
  intro fuel
  induction fuel with
  | zero => intro i h; rfl
  | succ n ih =>
      intro i h
      have h0 : attemptFailed (oracle i) = true := h i (Nat.le_refl i) (by omega)
      have hrec := ih (i + 1) (fun j hj1 hj2 => h j (by omega) (by omega))
      unfold initLoop
      cases hc : oracle i with
      | ok c => rw [hc] at h0; exact absurd h0 (by simp [attemptFailed])
      | fail e => simp [hrec]

/-- No attempt, whatever its failure point, emits a cleanup event. -/
theorem attemptEvents_all_notCleanup (fp : FailPoint) :
    (attemptEvents fp).all notCleanup = true := by
  cases fp <;> rfl

/-- The whole retry loop emits no cleanup event, for every oracle, start
index and fuel. -/
theorem initTrace_all_notCleanup (oracle : Nat → FailPoint) :
    ∀ fuel i, (initTrace oracle i fuel).all notCleanup = true := by
  intro fuel
  induction fuel with
  | zero => intro i; rfl
  | succ n ih =>
      intro i
      have ha := attemptEvents_all_notCleanup (oracle i)
      have hi := ih (i + 1)
      unfold initTrace
      by_cases hs : attemptSucceeds (oracle i) = true
      · simpa [hs] using ha
      · by_cases hn : n = 0
        · subst hn
          simp [hs, List.all_append, ha, hi, notCleanup, initTrace]
        · simp [hs, hn, List.all_append, ha, hi, notCleanup]

/-! ## Claim theorems -/

/-- C1 counterexample: after the open completes and one write fails, the
write-error latch is set and the bridge is not destroyed, yet the next write
still performs a transport write and its callback reports success — the latch
alone does not short-circuit `_write`. -/
theorem C1_counterexample :
    (runBridge (initialBridge "10.0.0.1:6379")
        [BridgeOp.openOk, BridgeOp.write 1 (some "boom")]).hasWriteError = true ∧
    (runBridge (initialBridge "10.0.0.1:6379")
        [BridgeOp.openOk, BridgeOp.write 1 (some "boom")]).isDestroyed = false ∧
    (writeStep (runBridge (initialBridge "10.0.0.1:6379")
        [BridgeOp.openOk, BridgeOp.write 1 (some "boom")]) 1 none).2
      = [BridgeEvent.transportWrite 1, BridgeEvent.writeCallback none] := by
  decide

/-- C1 (amended): once `destroyed` is true (or the writer handle is null),
every write fails immediately with the synthetic not-connected error and no
operation sequence lacking an open completion ever reaches the transport with
a write; the write-error latch alone does not block `_write` — it only forces
`readyState = closed` and `hasErrors = true`. -/
theorem C1_latched_writes (st : BridgeState) (ops : List BridgeOp)
    (hd : st.isDestroyed = true) (hop : BridgeOp.openOk ∉ ops) :
    (∀ len outcome, writeStep st len outcome
        = (st, [BridgeEvent.writeCallback (some writeNotConnectedMsg)])) ∧
    (∀ ev ∈ runEvents st ops, isTransportWrite ev = false) ∧
    readyState st = "closed" ∧
    hasErrors st = true ∧
    (∀ st2 : BridgeState, st2.hasWriteError = true →
        readyState st2 = "closed" ∧ hasErrors st2 = true) := by
  refine ⟨fun len outcome => writeStep_of_destroyed st len outcome hd,
          runEvents_of_destroyed ops st hd hop, ?_, ?_, ?_⟩
  · simp [readyState, hd]
  · simp [hasErrors, hd]
  · intro st2 h2
    exact ⟨by simp [readyState, h2], by simp [hasErrors, h2]⟩

/-- C1 witness: the amended theorem applied to a concrete destroyed bridge
and a concrete open-free operation sequence. -/
theorem C1_latched_writes_witness :
    exDestroyed.isDestroyed = true ∧ BridgeOp.openOk ∉ exOps ∧
    ((∀ len outcome, writeStep exDestroyed len outcome
        = (exDestroyed, [BridgeEvent.writeCallback (some writeNotConnectedMsg)])) ∧
     (∀ ev ∈ runEvents exDestroyed exOps, isTransportWrite ev = false) ∧
     readyState exDestroyed = "closed" ∧
     hasErrors exDestroyed = true ∧
     (∀ st2 : BridgeState, st2.hasWriteError = true →
        readyState st2 = "closed" ∧ hasErrors st2 = true)) :=
  ⟨rfl, by decide, C1_latched_writes exDestroyed exOps rfl (by decide)⟩

/-- C2 counterexample: two concurrent `init` callers, both observing the
unset client, run under the interleaving that lets the second check the
client field while the first is suspended inside its attempt: two underlying
connection attempts are begun, not one. -/
theorem C2_counterexample :
    (concRun { client := none, attempts := 0, threads := [Phase.start, Phase.start] }
        [0, 1, 0, 1]).attempts = 2 ∧
    (concRun { client := none, attempts := 0, threads := [Phase.start, Phase.start] }
        [0, 1, 0, 1]).threads = [Phase.done, Phase.done] ∧
    (concRun { client := none, attempts := 0, threads := [Phase.start, Phase.start] }
        [0, 1, 0, 1]).client = some 1 := by
  decide

/-- C2 (amended): `init()` is idempotent — a caller whose initial check
observes a live client returns at once, beginning no connection attempt and
leaving the state unchanged apart from its completion — but there is no
single-flight guard: each concurrent caller that observes an unset client
begins its own attempt, so two concurrent callers can begin two underlying
connection attempts. -/
theorem C2_no_single_flight (s : ConcState) (t : Nat)
    (hstart : s.threads.get? t = some Phase.start)
    (hsome : s.client.isSome = true) :
    concStep s t = { s with threads := s.threads.set t Phase.done } ∧
    (concStep s t).attempts = s.attempts ∧
    (concRun { client := none, attempts := 0, threads := [Phase.start, Phase.start] }
        [0, 1, 0, 1]).attempts = 2 := by
  have hstart2 : s.threads[t]? = some Phase.start := by
    rw [← List.get?_eq_getElem?]
    exact hstart
  refine ⟨?_, ?_, by decide⟩ <;> simp [concStep, hstart2, hsome]

/-- C2 witness: the amended theorem applied to a one-caller system whose
client is already set. -/
theorem C2_no_single_flight_witness :
    (ConcState.mk (some 5) 3 [Phase.start]).threads.get? 0 = some Phase.start ∧
    (ConcState.mk (some 5) 3 [Phase.start]).client.isSome = true ∧
    (concStep (ConcState.mk (some 5) 3 [Phase.start]) 0
        = ConcState.mk (some 5) 3 [Phase.done] ∧
     (concStep (ConcState.mk (some 5) 3 [Phase.start]) 0).attempts = 3 ∧
     (concRun { client := none, attempts := 0, threads := [Phase.start, Phase.start] }
        [0, 1, 0, 1]).attempts = 2) :=
  ⟨rfl, rfl, C2_no_single_flight (ConcState.mk (some 5) 3 [Phase.start]) 0 rfl rfl⟩

/-- C3 counterexample: after an `init()` whose five attempts all fail, the
client is unset — and a subsequent `init()` call runs a fresh attempt (here
one that succeeds), so further connection attempts are made: the failure
state is not terminal. -/
theorem C3_counterexample :
    init none (fun _ => AttemptResult.fail "ECONNREFUSED")
      = Except.ok (none, MAX_RETRIES) ∧
    init none (fun _ => AttemptResult.ok 7) = Except.ok (some 7, 1) :=
  ⟨rfl, rfl⟩

/-- C3 (amended): after `MAX_RETRIES` consecutive failed attempts a single
`init()` call leaves the client unset having made exactly `MAX_RETRIES`
attempts and no more, and every accessor call on the unset client fails with
the not-initialized error; but the failure is not terminal — a subsequent
`init()` call begins a fresh attempt sequence. -/
theorem C3_failure_not_terminal (oracle : Nat → AttemptResult)
    (h : ∀ j, j < MAX_RETRIES → attemptFailed (oracle j) = true) :
    init none oracle = Except.ok (none, MAX_RETRIES) ∧
    clientAccessor none = Except.error notInitMsg ∧
    (∀ c, init none (fun _ => AttemptResult.ok c) = Except.ok (some c, 1)) := by
  refine ⟨?_, rfl, fun c => rfl⟩
  have hl := initLoop_all_fail oracle MAX_RETRIES 0 (fun j hj1 hj2 => h j (by omega))
  simp [init, hl]

/-- C3 witness: the amended theorem applied to the oracle whose every attempt
fails with a connection error. -/
theorem C3_failure_not_terminal_witness :
    (∀ j, j < MAX_RETRIES →
        attemptFailed ((fun _ => AttemptResult.fail "conn") j) = true) ∧
    (init none (fun _ => AttemptResult.fail "conn")
        = Except.ok (none, MAX_RETRIES) ∧
     clientAccessor none = Except.error notInitMsg ∧
     (∀ c, init none (fun _ => AttemptResult.ok c) = Except.ok (some c, 1))) :=
  ⟨fun _ _ => rfl,
   C3_failure_not_terminal (fun _ => AttemptResult.fail "conn") (fun _ _ => rfl)⟩

/-- C4 counterexample: with every attempt failing after the bridge was
constructed, the loop creates five adapters and sleeps four times between
retries, yet the trace contains no adapter-destroy and no channel-close — the
partially-constructed resources of a failed attempt are not destroyed before
the next retry. -/
theorem C4_counterexample :
    (initTrace (fun _ => FailPoint.bridgeTimeout) 0 MAX_RETRIES).count
        MgrEvent.bridgeCreate = 5 ∧
    (initTrace (fun _ => FailPoint.bridgeTimeout) 0 MAX_RETRIES).count
        MgrEvent.sleepDelay = 4 ∧
    (initTrace (fun _ => FailPoint.bridgeTimeout) 0 MAX_RETRIES).contains
        MgrEvent.bridgeDestroy = false ∧
    (initTrace (fun _ => FailPoint.bridgeTimeout) 0 MAX_RETRIES).contains
        MgrEvent.socketClose = false := by
  decide

/-- C4 (amended): on any failure the attempt is logged and, when attempts
remain, the manager sleeps the fixed delay and retries; the
partially-constructed adapter and channel are never destroyed — for every
oracle, start index and fuel the retry-loop trace contains no adapter-destroy
and no channel-close event. -/
theorem C4_no_cleanup (oracle : Nat → FailPoint) (fuel i : Nat) :
    (initTrace oracle i fuel).all notCleanup = true :=
  initTrace_all_notCleanup oracle fuel i

/-- C5: the `client` accessor fails with the not-initialized error exactly
when the client handle is unset, and returns the stored handle otherwise; in
particular after an `init()` that stored a handle, the accessor yields that
handle. -/
theorem C5_accessor_iff (c : Option Nat) (oracle : Nat → AttemptResult) :
    ((∃ e, clientAccessor c = Except.error e) ↔ c = none) ∧
    (∀ cl, clientAccessor (some cl) = Except.ok cl) ∧
    (∀ cl n, init c oracle = Except.ok (some cl, n) →
        clientAccessor (some cl) = Except.ok cl) := by
  refine ⟨?_, fun cl => rfl, fun cl n _ => rfl⟩
  cases c with
  | none => simp [clientAccessor]
  | some cl => simp [clientAccessor]

/-- C5 witness: the accessor theorem applied to a concrete stored handle and
a concrete oracle. -/
theorem C5_accessor_iff_witness :
    ((∃ e, clientAccessor (some 7) = Except.error e) ↔ (some 7 : Option Nat) = none) ∧
    (∀ cl, clientAccessor (some cl) = Except.ok cl) ∧
    (∀ cl n, init (some 7) (fun _ => AttemptResult.fail "boom")
          = Except.ok (some cl, n) →
        clientAccessor (some cl) = Except.ok cl) :=
  C5_accessor_iff (some 7) (fun _ => AttemptResult.fail "boom")

/-- C6: for every non-reserved method name the proxy `get` trap yields a
forwarder that relays exactly the name and argument list to the server-side
`call` entry point; when the name is a callable member of the held client the
caller receives its unmodified result, and when it is absent the call fails
with the no-such-method error naming the method. -/
theorem C6_proxy_forwarding (client : ClientTable) (prop : String)
    (args : List String) (hres : reservedNames.contains prop = false) :
    proxyGet prop = ProxyMember.forwarder prop ∧
    forwardMessage (proxyGet prop) args = some ⟨prop, args⟩ ∧
    (∀ f, client prop = some f →
        facadeInvoke client prop args = some (Except.ok (f args))) ∧
    (client prop = none →
        facadeInvoke client prop args
          = some (Except.error
              ("Method " ++ prop ++ " is not a function on Redis client"))) := by
  have hp : proxyGet prop = ProxyMember.forwarder prop := by
    unfold proxyGet
    simp only [hres, Bool.false_eq_true, if_false]
  refine ⟨hp, by rw [hp]; rfl, ?_, ?_⟩
  · intro f hf
    simp [facadeInvoke, hp, forwardMessage, serverCall, rpcCall, hf]
  · intro hf
    simp [facadeInvoke, hp, forwardMessage, serverCall, rpcCall, hf]

/-- C6 witness: the forwarding theorem applied to a one-method client table
and the non-reserved name of that method. -/
theorem C6_proxy_forwarding_witness :
    reservedNames.contains "ping" = false ∧
    (proxyGet "ping" = ProxyMember.forwarder "ping" ∧
     forwardMessage (proxyGet "ping") ["x"] = some ⟨"ping", ["x"]⟩ ∧
     (∀ f, pingTable "ping" = some f →
        facadeInvoke pingTable "ping" ["x"] = some (Except.ok (f ["x"]))) ∧
     (pingTable "ping" = none →
        facadeInvoke pingTable "ping" ["x"]
          = some (Except.error
              ("Method " ++ "ping" ++ " is not a function on Redis client")))) :=
  ⟨by decide, C6_proxy_forwarding pingTable "ping" ["x"] (by decide)⟩

/-- C7 counterexample: a second `_destroy` on an already-destroyed bridge
still invokes `close()` on the underlying transport (`cfSocket` is never
cleared), an additional observable action against the transport. -/
theorem C7_counterexample :
    BridgeEvent.transportClose ∈
      (destroyStep
        (destroyStep (runBridge (initialBridge "10.0.0.1:6379") [BridgeOp.openOk])
            none).1 none).2 := by
  decide

/-- C7 (amended): a second `_destroy`, in any state and with any errors,
leaves the flags, reader and writer of the adapter unchanged and raises
nothing — every close failure is swallowed — but its effects are another
`close()` on the underlying transport followed by the completion callback. -/
theorem C7_destroy_idempotent (st : BridgeState) (e1 e2 : Option String) :
    destroyStep (destroyStep st e1).1 e2
      = ((destroyStep st e1).1,
         [BridgeEvent.transportClose, BridgeEvent.destroyCallback e2]) := rfl

/-- C9: `init()` never throws: for every prior client field and every oracle
of attempt outcomes it resolves normally, and when it resolves with the
client unset the failure is observable only through the accessor throwing the
not-initialized error. -/
theorem C9_init_never_throws (c : Option Nat) (oracle : Nat → AttemptResult) :
    (∃ r, init c oracle = Except.ok r) ∧
    (∀ n, init c oracle = Except.ok (none, n) →
        clientAccessor none = Except.error notInitMsg) := by
  refine ⟨?_, fun n _ => rfl⟩
  cases c with
  | none => exact ⟨initLoop oracle 0 MAX_RETRIES, rfl⟩
  | some cl => exact ⟨(some cl, 0), rfl⟩

/-- C9 witness: `init` applied with no prior client to the oracle whose every
attempt fails. -/
theorem C9_init_never_throws_witness :
    (∃ r, init none (fun _ => AttemptResult.fail "refused") = Except.ok r) ∧
    (∀ n, init none (fun _ => AttemptResult.fail "refused") = Except.ok (none, n) →
        clientAccessor none = Except.error notInitMsg) :=
  C9_init_never_throws none (fun _ => AttemptResult.fail "refused")

/-- C8: the encoding of a command with N arguments is the array header for
1+N elements followed by the length-prefixed frame of the name and of each
argument; in particular the PING and SET examples encode to their specified
byte strings. -/
theorem C8_encode (name : String) (args : List String) :
    encode "PING" [] = "*1\r\n$4\r\nPING\r\n" ∧
    encode "SET" ["a", "1"] = "*3\r\n$3\r\nSET\r\n$1\r\na\r\n$1\r\n1\r\n" ∧
    encode name args
      = "*" ++ toString ((name :: args).length) ++ "\r\n"
          ++ String.join (List.map bulkFrame (name :: args)) := by
  refine ⟨by decide, by decide, ?_⟩
  unfold encode
  rw [List.length_cons, Nat.add_comm]

/-- C10: `address()` returns the fixed record, whatever the state of the
bridge and whatever endpoint its transport was connected to. -/
theorem C10_address_constant (st st2 : BridgeState) :
    address st = { address := "10.0.0.1", family := "IPv4", port := 6379 } ∧
    address st = address st2 :=
  ⟨rfl, rfl⟩

end CfRedis
